import Mathlib

/-!
Shallow embedding of the Trinity Council decision core of the
personal-ai-architect repository, together with theorems settling the
frozen claims about it.

Embedded source files:
- src/skills/morning_briefing.py (class AutoApproveRules)
- src/council/__init__.py (Proposal, CouncilMember, TrinityCouncil)

Python dictionaries become association lists or structures, datetime
values become an explicit Timestamp record threaded through the calls,
Python floats become rationals (every value reachable in this code is a
small multiple of one half, represented exactly by both), and the one
fallible code path (condition strings that a Python split would fail to
unpack) is modelled with Except.
-/

/-! ## Python string primitives used by AutoApproveRules.evaluate -/

/-- Exact rational addition through mkRat. The library addition on Rat
is marked irreducible, so the embedding uses this definitionally
computable form; it produces the same normalized rational, and the
Python float additions it models (sums of ones and halves) are exact. -/
def qadd (a b : Rat) : Rat :=
  mkRat (a.num * b.den + b.num * a.den) (a.den * b.den)

/-- The rational one half, in a definitionally computable form. -/
def qhalf : Rat := mkRat 1 2

/-- A natural number as a rational, in a definitionally computable
form (the embedding of the comparison between a float tally and an
integer counter). -/
def qofNat (n : Nat) : Rat := mkRat n 1

/-- The apostrophe character (written via its code point). -/
def quoteChar : Char := Char.ofNat 39

/-- A one-character string holding an apostrophe. -/
def quoteStr : String := String.mk [quoteChar]

deriving instance DecidableEq for Except

/-- Split a character list on a two-character separator, left to right,
non-overlapping, mirroring the Python str.split semantics for the
separators used in the rule conditions. -/
def splitOn2 (c1 c2 : Char) : List Char → List (List Char)
  | [] => [[]]
  | [a] => [[a]]
  | a :: b :: rest =>
    if a = c1 ∧ b = c2 then
      [] :: splitOn2 c1 c2 rest
    else
      match splitOn2 c1 c2 (b :: rest) with
      | [] => [[a]]
      | g :: gs => (a :: g) :: gs

/-- Python s.split(sep) for a two-character separator. -/
def pySplit2 (c1 c2 : Char) (s : String) : List String :=
  (splitOn2 c1 c2 s.data).map String.mk

/-- Drop the characters satisfying p from both ends of a list. -/
def stripEnds (p : Char → Bool) (cs : List Char) : List Char :=
  ((cs.dropWhile p).reverse.dropWhile p).reverse

/-- Python str.strip() restricted to the whitespace that occurs in the
embedded strings. -/
def pyStrip (s : String) : String :=
  String.mk (stripEnds (fun c => c = ' ' ∨ c = '\t' ∨ c = '\n' ∨ c = '\r') s.data)

/-- Python str.strip(c) for a single character c. -/
def pyStripChar (c : Char) (s : String) : String :=
  String.mk (stripEnds (fun x => x = c) s.data)

/-! ## AutoApproveRules (src/skills/morning_briefing.py, lines 137-201) -/

/-- One entry of AutoApproveRules.RULES. -/
structure Rule where
  name : String
  conditions : List String
  result : String
  reason : String
deriving DecidableEq, Repr

/-- The dictionary returned by AutoApproveRules.evaluate; the rule field
is none exactly when the Python dictionary lacks the rule key. -/
structure GateResult where
  auto_approved : Bool
  rule : Option String
  reason : String
deriving DecidableEq, Repr

/-- The details argument of evaluate: a Python dict of strings. -/
def Details := List (String × String)

/-- Python details.get(key). -/
def dictGet (d : Details) (k : String) : Option String :=
  List.lookup k d

namespace AutoApproveRules

/-- Helper building a condition string such as the Python source literal
with the operator op between a key and a quoted value. -/
def mkCond (k op v : String) : String :=
  k ++ " " ++ op ++ " " ++ quoteStr ++ v ++ quoteStr

/-- Rule 1 of AutoApproveRules.RULES. -/
def ruleMemory : Rule :=
  { name := "Internal Memory Operations"
    conditions := [mkCond "action_type" "==" "memory_write", mkCond "risk_level" "==" "low"]
    result := "approve"
    reason := "Memory operations are safe" }

/-- Rule 2 of AutoApproveRules.RULES. -/
def ruleRead : Rule :=
  { name := "Read-Only Queries"
    conditions := [mkCond "action_type" "==" "read", mkCond "risk_level" "==" "low"]
    result := "approve"
    reason := "Read operations are safe" }

/-- Rule 3 of AutoApproveRules.RULES. -/
def ruleFileRead : Rule :=
  { name := "Local File Reads"
    conditions := [mkCond "action_type" "==" "file_read", mkCond "risk_level" "==" "low"]
    result := "approve"
    reason := "Reading local files is safe" }

/-- Rule 4 of AutoApproveRules.RULES. -/
def ruleStatus : Rule :=
  { name := "Status Checks"
    conditions := [mkCond "action_type" "==" "status_check", mkCond "risk_level" "==" "none"]
    result := "approve"
    reason := "Status checks are always safe" }

/-- AutoApproveRules.RULES, in source order. -/
def RULES : List Rule := [ruleMemory, ruleRead, ruleFileRead, ruleStatus]

/-- One iteration of the condition loop body: given a condition string,
decide whether the matches flag survives it. The value is ok true when
the loop body leaves matches set, ok false when it clears matches
and breaks, and error when the Python tuple unpacking of the split
would raise ValueError (a separator occurring more than once). A
condition containing neither separator takes no branch, leaving matches
unchanged, hence ok true. -/
def evalCondition (details : Details) (condition : String) : Except String Bool :=
  let eqParts := pySplit2 '=' '=' condition
  if eqParts.length ≠ 1 then
    match eqParts with
    | [k, v] =>
      Except.ok (dictGet details (pyStrip k) = some (pyStripChar '"' (pyStripChar quoteChar (pyStrip v))))
    | _ => Except.error "ValueError"
  else
    let neParts := pySplit2 '!' '=' condition
    if neParts.length ≠ 1 then
      match neParts with
      | [k, v] =>
        Except.ok (dictGet details (pyStrip k) ≠ some (pyStripChar '"' (pyStripChar quoteChar (pyStrip v))))
      | _ => Except.error "ValueError"
    else
      Except.ok true

/-- The inner for-loop over one rule: matches is true until some
condition clears it, at which point the loop breaks. -/
def ruleMatches (details : Details) : List String → Except String Bool
  | [] => Except.ok true
  | c :: rest =>
    match evalCondition details c with
    | Except.error e => Except.error e
    | Except.ok false => Except.ok false
    | Except.ok true => ruleMatches details rest

/-- The default dictionary returned when no rule matches. -/
def noMatchResult : GateResult :=
  { auto_approved := false
    rule := none
    reason := "No auto-approve rule matches - requires human approval" }

/-- The outer for-loop of evaluate over an ordered rule list: the first
rule whose conditions all hold returns immediately. -/
def evalRules (details : Details) : List Rule → Except String GateResult
  | [] => Except.ok noMatchResult
  | r :: rest =>
    match ruleMatches details r.conditions with
    | Except.error e => Except.error e
    | Except.ok true =>
      Except.ok { auto_approved := true, rule := some r.name, reason := r.reason }
    | Except.ok false => evalRules details rest

/-- AutoApproveRules.evaluate(action_type, risk_level, details): the two
scalar parameters appear in the Python signature but the body reads only
details, iterating self.RULES. -/
def evaluate (action_type : String) (risk_level : String) (details : Details) :
    Except String GateResult :=
  evalRules details RULES

end AutoApproveRules

/-! ## Trinity Council data model (src/council/__init__.py) -/

/-- A datetime value, to the precision the embedded code can observe:
the id format string reads the fields down to seconds, while equality of
datetime.now() results can differ at microsecond precision. -/
structure Timestamp where
  year : Nat
  month : Nat
  day : Nat
  hour : Nat
  minute : Nat
  second : Nat
  microsecond : Nat
deriving DecidableEq, Repr

/-- Zero-padded two-digit rendering, as strftime does for month, day,
hour, minute and second. -/
def pad2 (n : Nat) : String :=
  if n < 10 then "0" ++ toString n else toString n

/-- Zero-padded four-digit rendering of the year. -/
def pad4 (n : Nat) : String :=
  if n < 10 then "000" ++ toString n
  else if n < 100 then "00" ++ toString n
  else if n < 1000 then "0" ++ toString n
  else toString n

/-- strftime with the format used for proposal ids: year, month, day,
an underscore, then hour, minute, second. Only second granularity: the
microsecond field is not rendered. -/
def strftimeId (t : Timestamp) : String :=
  pad4 t.year ++ pad2 t.month ++ pad2 t.day ++ "_" ++
    pad2 t.hour ++ pad2 t.minute ++ pad2 t.second

/-- The AgentRole enum. -/
inductive AgentRole
  | strategist
  | skeptic
  | guardian
  | moderator
deriving DecidableEq, Repr

/-- The string value of each enum member. -/
def AgentRole.value : AgentRole → String
  | strategist => "strategist"
  | skeptic => "skeptic"
  | guardian => "guardian"
  | moderator => "moderator"

/-- The Proposal dataclass. Python floats are embedded as rationals:
every numeric value this code computes is a small multiple of one half,
which both represent exactly. -/
structure Proposal where
  id : String
  title : String
  description : String
  proposed_by : String
  timestamp : Timestamp
  domain : String
  priority : Int
  external_action : Bool := false
  estimated_cost : Rat := 0
  risk_level : String := "low"
  votes : List (String × String) := []
deriving DecidableEq, Repr

/-- The dictionary a CouncilMember evaluation returns. The concerns key
exists only in the skeptic dictionary and the consensus_reached key only
in the moderator dictionary; the embedding carries them as defaulted
fields, and no embedded code reads them from the other roles. -/
structure RoleEval where
  role : String
  position : String
  rating : String
  reasoning : String
  concerns : List String := []
  consensus_reached : Bool := false
deriving DecidableEq, Repr

namespace CouncilMember

/-- CouncilMember._evaluate_strategist. -/
def evaluate_strategist (proposal : Proposal) : RoleEval :=
  { role := "strategist"
    position := "This proposal aligns with long-term goals"
    rating := "support"
    reasoning := "Strategic fit for " ++ proposal.domain ++ " domain" }

/-- CouncilMember._evaluate_skeptic. -/
def evaluate_skeptic (proposal : Proposal) : RoleEval :=
  let concerns :=
    (if proposal.external_action then ["External action requires explicit approval"] else []) ++
    (if proposal.risk_level = "high" ∨ proposal.risk_level = "critical"
      then ["Risk level is " ++ proposal.risk_level] else []) ++
    (if proposal.priority > 4 then ["Very high priority needs justification"] else [])
  { role := "skeptic"
    position := "Questions and concerns raised"
    rating :=
      if proposal.risk_level = "critical" then "reject"
      else if concerns.isEmpty then "support" else "conditional"
    reasoning :=
      if concerns.isEmpty then "No major issues"
      else "Found " ++ toString concerns.length ++ " concern(s)"
    concerns := concerns }

/-- CouncilMember._evaluate_guardian. The source interpolates the cost
into the reasoning text; the embedding renders the rational with
toString, which can differ from the Python float rendering, and no
theorem depends on that text. -/
def evaluate_guardian (proposal : Proposal) : RoleEval :=
  if proposal.risk_level = "critical" then
    { role := "guardian"
      position := "Safety and cost assessment"
      rating := "reject"
      reasoning := "Risk: CRITICAL - cannot approve" }
  else if proposal.risk_level = "high" ∧ proposal.estimated_cost > 100 then
    { role := "guardian"
      position := "Safety and cost assessment"
      rating := "conditional"
      reasoning := "High risk ($" ++ toString proposal.estimated_cost ++ ") needs approval" }
  else
    { role := "guardian"
      position := "Safety and cost assessment"
      rating := "approved"
      reasoning := "Risk: " ++ proposal.risk_level ++ ", Cost: $" ++ toString proposal.estimated_cost }

/-- CouncilMember._evaluate_moderator. The ratings table below is the
fixed dictionary written at lines 102-106 of the source: the proposal
argument, and the real evaluations of the other members, are never
consulted by this function. The numeric rendering inside reasoning is
approximated by toString; no theorem depends on that text. -/
def evaluate_moderator (proposal : Proposal) : RoleEval :=
  let ratings : List (String × String) :=
    [("strategist", "support"), ("skeptic", "conditional"), ("guardian", "approved")]
  let tally := ratings.foldl
    (fun (acc : Rat × Nat) rr =>
      if rr.2 = "support" ∨ rr.2 = "approved" then (qadd acc.1 1, acc.2)
      else if rr.2 = "reject" then (acc.1, acc.2 + 1)
      else if rr.2 = "conditional" then (qadd acc.1 qhalf, acc.2)
      else acc)
    ((0 : Rat), (0 : Nat))
  let approvals := tally.1
  let rejections := tally.2
  let decision := if approvals > qofNat rejections then "approved" else "rejected"
  { role := "moderator"
    position := "Final decision"
    rating := decision
    reasoning := toString approvals ++ " approvals vs " ++ toString rejections ++ " rejections"
    consensus_reached := decide (approvals ≥ 2) }

/-- CouncilMember.evaluate: dispatch on the role. -/
def evaluate (role : AgentRole) (proposal : Proposal) : RoleEval :=
  match role with
  | AgentRole.strategist => evaluate_strategist proposal
  | AgentRole.skeptic => evaluate_skeptic proposal
  | AgentRole.guardian => evaluate_guardian proposal
  | AgentRole.moderator => evaluate_moderator proposal

end CouncilMember

/-- The decision dictionary deliberated builds and appends. -/
structure Decision where
  proposal_id : String
  title : String
  domain : String
  timestamp : Timestamp
  council_votes : List (String × String)
  council_analysis : List (String × String × String)
  decision : String
  reasoning : String
  consensus : Bool
  requires_human_approval : Bool
deriving DecidableEq, Repr

/-- The mutable state of a TrinityCouncil instance: the proposal list
and the decision list (the members table holds no state beyond the four
fixed roles, which the embedding carries as the list memberRoles). -/
structure TrinityCouncil where
  proposals : List Proposal := []
  decisions : List Decision := []
deriving DecidableEq, Repr

namespace TrinityCouncil

/-- The insertion order of the members dictionary built in __init__. -/
def memberRoles : List AgentRole :=
  [AgentRole.strategist, AgentRole.skeptic, AgentRole.guardian, AgentRole.moderator]

/-- TrinityCouncil.submit_proposal. The two datetime.now() calls in the
source occur within the same statement; the embedding passes the current
time explicitly as now. No validation of any argument is performed. -/
def submit_proposal (c : TrinityCouncil) (title description domain : String)
    (priority : Int) (external_action : Bool) (estimated_cost : Rat)
    (risk_level : String) (now : Timestamp) : TrinityCouncil × Proposal :=
  let proposal : Proposal :=
    { id := "prop_" ++ strftimeId now
      title := title
      description := description
      proposed_by := domain
      timestamp := now
      domain := domain
      priority := priority
      external_action := external_action
      estimated_cost := estimated_cost
      risk_level := risk_level }
  ({ c with proposals := c.proposals ++ [proposal] }, proposal)

/-- TrinityCouncil.deliberated. Every member evaluates in the members
dictionary insertion order; the moderator entry of results is then read
back (evaluation is pure, so re-evaluating the moderator equals the
stored entry). The decision is appended unconditionally: there is no
duplicate check and no rule-gate consultation in this function. -/
def deliberated (c : TrinityCouncil) (proposal : Proposal) (now : Timestamp) :
    TrinityCouncil × Decision :=
  let results := memberRoles.map (fun role => (role, CouncilMember.evaluate role proposal))
  let votes := results.map (fun x => (x.1.value, x.2.rating))
  let moderator_result := CouncilMember.evaluate AgentRole.moderator proposal
  let decision : Decision :=
    { proposal_id := proposal.id
      title := proposal.title
      domain := proposal.domain
      timestamp := now
      council_votes := votes
      council_analysis := results.map (fun x => (x.1.value, x.2.rating, x.2.reasoning))
      decision := moderator_result.rating
      reasoning := moderator_result.reasoning
      consensus := moderator_result.consensus_reached
      requires_human_approval :=
        proposal.external_action && (moderator_result.rating != "approved") }
  ({ c with decisions := c.decisions ++ [decision] }, decision)

end TrinityCouncil

/-! ## Concrete fixtures used by the closed theorems -/

/-- A sample instant. -/
def t0 : Timestamp := ⟨2025, 1, 2, 3, 4, 5, 0⟩

/-- An instant with nonzero microseconds. -/
def tSameSecA : Timestamp := ⟨2025, 1, 2, 3, 4, 5, 111111⟩

/-- A different instant within the very same second. -/
def tSameSecB : Timestamp := ⟨2025, 1, 2, 3, 4, 5, 999999⟩

/-- A fresh council. -/
def council0 : TrinityCouncil := {}

/-- A critical-risk proposal with an external action. -/
def pCritical : Proposal :=
  { id := "prop_20250102_030405"
    title := "Wipe production database"
    description := "Remove all records"
    proposed_by := "work"
    timestamp := t0
    domain := "work"
    priority := 3
    external_action := true
    estimated_cost := 0
    risk_level := "critical" }

/-- A low-risk proposal with an external action, mirroring the demo in
the source main block: its skeptic evaluation is conditional, not
support. -/
def pExternalLow : Proposal :=
  { id := "prop_20250102_030405"
    title := "Deploy new automation script"
    description := "Create automated backup system for personal files"
    proposed_by := "personal"
    timestamp := t0
    domain := "personal"
    priority := 4
    external_action := true
    estimated_cost := qhalf
    risk_level := "low" }

/-- An action context that the rule gate auto-approves. -/
def dReadLow : Details := [("action_type", "read"), ("risk_level", "low")]

/-- A rule with a disequality condition, exercising the other operator
the condition evaluator supports. -/
def ruleNoWrites : Rule :=
  { name := "No External Writes"
    conditions := [AutoApproveRules.mkCond "action_type" "!=" "write"]
    result := "approve"
    reason := "Anything except writes" }

/-! ## Theorems settling the claims -/

/-- C1: the claim says the Moderator aggregates the actual ratings of
Strategist, Skeptic and Guardian for the same proposal and is never a
function of a fixed stand-in set. The code does the opposite: its
moderator tallies the hardcoded table (support, conditional, approved),
so its output is the same for every proposal; in particular, on a
critical-risk proposal whose real skeptic and guardian ratings are both
reject, the moderator still reports approved with consensus reached. -/
theorem moderator_rating_is_constant :
    (∀ p q : Proposal,
      CouncilMember.evaluate AgentRole.moderator p = CouncilMember.evaluate AgentRole.moderator q) ∧
    (CouncilMember.evaluate AgentRole.skeptic pCritical).rating = "reject" ∧
    (CouncilMember.evaluate AgentRole.guardian pCritical).rating = "reject" ∧
    (CouncilMember.evaluate AgentRole.moderator pCritical).rating = "approved" ∧
    (CouncilMember.evaluate AgentRole.moderator pCritical).consensus_reached = true :=
  ⟨fun _ _ => rfl, by decide, by decide, by decide, by decide⟩

/-- C2: the claim says every critical-risk proposal that goes through
full deliberation ends with final_verdict rejected and consensus false.
Evaluating the code at a concrete critical-risk proposal: skeptic and
guardian do rate reject, yet the produced Decision is approved with
consensus true (and, the final verdict being approved, the human
approval flag is false even though the action is external). -/
theorem critical_risk_is_approved_by_code :
    (CouncilMember.evaluate AgentRole.skeptic pCritical).rating = "reject" ∧
    (CouncilMember.evaluate AgentRole.guardian pCritical).rating = "reject" ∧
    List.lookup "skeptic" (TrinityCouncil.deliberated council0 pCritical t0).2.council_votes =
      some "reject" ∧
    List.lookup "guardian" (TrinityCouncil.deliberated council0 pCritical t0).2.council_votes =
      some "reject" ∧
    (TrinityCouncil.deliberated council0 pCritical t0).2.decision = "approved" ∧
    (TrinityCouncil.deliberated council0 pCritical t0).2.consensus = true ∧
    (TrinityCouncil.deliberated council0 pCritical t0).2.requires_human_approval = false := by
  refine ⟨by decide, by decide, by decide, by decide, by decide, by decide, by decide⟩

/-- C3 counterexample: the claim says deliberation first evaluates the
RuleGate and, on a match, returns a synthesized Decision whose skeptic
vote is support. At a concrete input whose action context does match the
Read-Only Queries rule, the Decision the code produces carries the
skeptic vote conditional, not support: the role evaluators ran and no
rule-gate short circuit happened. -/
theorem rule_match_does_not_short_circuit :
    AutoApproveRules.evaluate "read" "low" dReadLow =
      Except.ok { auto_approved := true, rule := some "Read-Only Queries",
                  reason := "Read operations are safe" } ∧
    List.lookup "skeptic" (TrinityCouncil.deliberated council0 pExternalLow t0).2.council_votes =
      some "conditional" := by
  refine ⟨by decide, by decide⟩

/-- C3 amended: deliberated never consults the RuleGate. For every
council state, proposal and instant, it runs all four role evaluators
and builds council_votes from their actual ratings, and the final
verdict is the moderator rating; no rule name is recorded anywhere in
the Decision (the Decision shape has no such field). -/
theorem deliberated_runs_full_council_always :
    ∀ (c : TrinityCouncil) (p : Proposal) (now : Timestamp),
      (TrinityCouncil.deliberated c p now).2.council_votes =
        [("strategist", (CouncilMember.evaluate AgentRole.strategist p).rating),
         ("skeptic", (CouncilMember.evaluate AgentRole.skeptic p).rating),
         ("guardian", (CouncilMember.evaluate AgentRole.guardian p).rating),
         ("moderator", (CouncilMember.evaluate AgentRole.moderator p).rating)] ∧
      (TrinityCouncil.deliberated c p now).2.decision =
        (CouncilMember.evaluate AgentRole.moderator p).rating :=
  fun _ _ _ => ⟨rfl, rfl⟩

/-- C4: on every code path that produces a Decision (deliberated is the
only one in the source), the human-approval flag equals the conjunction
of the external_action field with the final verdict differing from
approved. -/
theorem requires_human_approval_contract :
    ∀ (c : TrinityCouncil) (p : Proposal) (now : Timestamp),
      (TrinityCouncil.deliberated c p now).2.requires_human_approval =
        (p.external_action &&
          ((TrinityCouncil.deliberated c p now).2.decision != "approved")) :=
  fun _ _ _ => rfl

/-- C5: rule-gate evaluation is first-match-wins over an ordered rule
list. If every rule before r fails and r matches, the outcome over the
whole list equals the outcome with everything after r dropped, namely
the approval carrying the name and reason of r; and when every rule
fails, the outcome is the default non-approval. -/
theorem rulegate_first_match_wins :
    (∀ (pre : List Rule) (r : Rule) (post : List Rule) (details : Details),
      (∀ r' ∈ pre, AutoApproveRules.ruleMatches details r'.conditions = Except.ok false) →
      AutoApproveRules.ruleMatches details r.conditions = Except.ok true →
      AutoApproveRules.evalRules details (pre ++ r :: post) =
          Except.ok { auto_approved := true, rule := some r.name, reason := r.reason } ∧
      AutoApproveRules.evalRules details (pre ++ r :: post) =
          AutoApproveRules.evalRules details (pre ++ [r])) ∧
    (∀ (rules : List Rule) (details : Details),
      (∀ r ∈ rules, AutoApproveRules.ruleMatches details r.conditions = Except.ok false) →
      AutoApproveRules.evalRules details rules = Except.ok AutoApproveRules.noMatchResult) := by
  constructor
  · intro pre r post details
    induction pre with
    | nil =>
      intro _ hr
      refine ⟨?_, ?_⟩ <;> simp [AutoApproveRules.evalRules, hr]
    | cons a pre ih =>
      intro hpre hr
      have ha := hpre a (List.mem_cons_self a pre)
      have hrest := ih (fun r' hm => hpre r' (List.mem_cons_of_mem a hm)) hr
      constructor
      · simp only [List.cons_append, AutoApproveRules.evalRules, ha]
        exact hrest.1
      · simp only [List.cons_append, AutoApproveRules.evalRules, ha]
        exact hrest.2
  · intro rules details
    induction rules with
    | nil => intro _; rfl
    | cons a rules ih =>
      intro hall
      have ha := hall a (List.mem_cons_self a rules)
      have hrest := ih (fun r' hm => hall r' (List.mem_cons_of_mem a hm))
      simp [AutoApproveRules.evalRules, ha, hrest]

/-- C5 witness: instantiating first-match-wins at the concrete rule
list of the source and a read-low context (the memory rule fails, the
read rule matches, two rules follow it), and its no-match part at the
empty context. -/
theorem rulegate_first_match_wins_witness :
    AutoApproveRules.evalRules dReadLow AutoApproveRules.RULES =
      Except.ok { auto_approved := true, rule := some "Read-Only Queries",
                  reason := "Read operations are safe" } ∧
    AutoApproveRules.evalRules [] AutoApproveRules.RULES =
      Except.ok AutoApproveRules.noMatchResult := by
  constructor
  · exact (rulegate_first_match_wins.1 [AutoApproveRules.ruleMemory] AutoApproveRules.ruleRead
      [AutoApproveRules.ruleFileRead, AutoApproveRules.ruleStatus] dReadLow
      (by intro r hm; simp at hm; subst hm; decide) (by decide)).1
  · exact rulegate_first_match_wins.2 AutoApproveRules.RULES []
      (by intro r hm; simp [AutoApproveRules.RULES] at hm
          rcases hm with h | h | h | h <;> subst h <;> decide)

/-- C6 counterexample: the claim says a submission with priority
outside one to five or an unknown risk level fails and creates no
Proposal. At priority 99 and an unknown risk level, the code creates
the Proposal, appends it to the registry, and returns it. -/
theorem submit_accepts_invalid_proposal :
    (TrinityCouncil.submit_proposal council0 "t" "d" "personal" 99 false 0 "not_a_level" t0).1.proposals.length = 1 ∧
    (TrinityCouncil.submit_proposal council0 "t" "d" "personal" 99 false 0 "not_a_level" t0).2.priority = 99 ∧
    (TrinityCouncil.submit_proposal council0 "t" "d" "personal" 99 false 0 "not_a_level" t0).2.risk_level = "not_a_level" := by
  refine ⟨by decide, by decide, by decide⟩

/-- C6 amended: submit_proposal performs no validation at all. For
every input, including priorities outside one to five and risk levels
outside the enumerated four, a Proposal carrying exactly the given
fields is created, appended to the registry, and returned; no failure
path exists. -/
theorem submit_creates_proposal_unconditionally :
    ∀ (c : TrinityCouncil) (title description domain : String) (priority : Int)
      (external_action : Bool) (estimated_cost : Rat) (risk_level : String) (now : Timestamp),
      (TrinityCouncil.submit_proposal c title description domain priority external_action
          estimated_cost risk_level now).1.proposals =
        c.proposals ++ [(TrinityCouncil.submit_proposal c title description domain priority
          external_action estimated_cost risk_level now).2] ∧
      (TrinityCouncil.submit_proposal c title description domain priority external_action
          estimated_cost risk_level now).2.priority = priority ∧
      (TrinityCouncil.submit_proposal c title description domain priority external_action
          estimated_cost risk_level now).2.risk_level = risk_level ∧
      (TrinityCouncil.submit_proposal c title description domain priority external_action
          estimated_cost risk_level now).1.decisions = c.decisions :=
  fun _ _ _ _ _ _ _ _ _ => ⟨rfl, rfl, rfl, rfl⟩

/-- C7 counterexample: the claim says a second deliberation of an
already-decided proposal id fails and leaves the ledger unchanged.
Deliberating the same proposal twice appends two Decisions bearing the
same proposal id. -/
theorem second_deliberation_appends_duplicate :
    (TrinityCouncil.deliberated (TrinityCouncil.deliberated council0 pCritical t0).1
        pCritical t0).1.decisions.length = 2 ∧
    (TrinityCouncil.deliberated (TrinityCouncil.deliberated council0 pCritical t0).1
        pCritical t0).1.decisions.map Decision.proposal_id = [pCritical.id, pCritical.id] := by
  refine ⟨by decide, by decide⟩

/-- C7 amended: deliberated never checks the ledger. Every call, in
particular one whose proposal id already has a Decision recorded,
unconditionally appends one more Decision carrying that id; no
duplicate-decision failure path exists. -/
theorem deliberated_appends_unconditionally :
    ∀ (c : TrinityCouncil) (p : Proposal) (now : Timestamp),
      (TrinityCouncil.deliberated c p now).1.decisions =
        c.decisions ++ [(TrinityCouncil.deliberated c p now).2] ∧
      (TrinityCouncil.deliberated c p now).2.proposal_id = p.id ∧
      (TrinityCouncil.deliberated c p now).1.proposals = c.proposals :=
  fun _ _ _ => ⟨rfl, rfl, rfl⟩

/-- C8: the claim says two submissions in the same second still get
distinct ids. The code derives the id purely from the second-granularity
timestamp rendering, so two distinct submission instants within one
second produce the very same id. -/
theorem same_second_submissions_share_id :
    tSameSecA ≠ tSameSecB ∧
    (TrinityCouncil.submit_proposal council0 "first" "d1" "personal" 3 false 0 "low"
        tSameSecA).2.id =
      (TrinityCouncil.submit_proposal council0 "second" "d2" "work" 4 true 0 "high"
        tSameSecB).2.id ∧
    (TrinityCouncil.submit_proposal council0 "first" "d1" "personal" 3 false 0 "low"
        tSameSecA).2.id = "prop_20250102_030405" := by
  refine ⟨by decide, by decide, by decide⟩

/-- C9 counterexample: the claim says a predicate whose key is missing
from the context evaluates false for every operator the rules support,
so that the predicate alone prevents a match. For the disequality
operator the opposite holds: on an empty context the predicate
evaluates true and a rule consisting of it matches. -/
theorem missing_key_ne_predicate_matches :
    AutoApproveRules.evalCondition [] (AutoApproveRules.mkCond "action_type" "!=" "write") =
      Except.ok true ∧
    AutoApproveRules.evalRules [] [ruleNoWrites] =
      Except.ok { auto_approved := true, rule := some "No External Writes",
                  reason := "Anything except writes" } := by
  refine ⟨by decide, by decide⟩

/-- C9 amended: a missing key never raises, and its effect depends on
the operator: an equality predicate on a missing key evaluates false —
hence, the first condition of every rule in the shipped rule set being
an equality on action_type, a context without that key matches no rule —
while a disequality predicate on a missing key evaluates true and does
not prevent a match. -/
theorem missing_key_behavior_by_operator :
    (∀ details : Details, dictGet details "action_type" = none →
      AutoApproveRules.evalRules details AutoApproveRules.RULES =
        Except.ok AutoApproveRules.noMatchResult) ∧
    AutoApproveRules.evalCondition [] (AutoApproveRules.mkCond "action_type" "!=" "write") =
      Except.ok true := by
  constructor
  · intro details h
    have e1 : AutoApproveRules.evalCondition details
        (AutoApproveRules.mkCond "action_type" "==" "memory_write") =
        Except.ok (decide (dictGet details "action_type" = some "memory_write")) := rfl
    have e2 : AutoApproveRules.evalCondition details
        (AutoApproveRules.mkCond "action_type" "==" "read") =
        Except.ok (decide (dictGet details "action_type" = some "read")) := rfl
    have e3 : AutoApproveRules.evalCondition details
        (AutoApproveRules.mkCond "action_type" "==" "file_read") =
        Except.ok (decide (dictGet details "action_type" = some "file_read")) := rfl
    have e4 : AutoApproveRules.evalCondition details
        (AutoApproveRules.mkCond "action_type" "==" "status_check") =
        Except.ok (decide (dictGet details "action_type" = some "status_check")) := rfl
    rw [h] at e1 e2 e3 e4
    simp at e1 e2 e3 e4
    simp [AutoApproveRules.RULES, AutoApproveRules.evalRules, AutoApproveRules.ruleMatches,
      AutoApproveRules.ruleMemory, AutoApproveRules.ruleRead, AutoApproveRules.ruleFileRead,
      AutoApproveRules.ruleStatus, e1, e2, e3, e4]
  · decide

/-- C9 witness: a context holding an unrelated key matches no shipped
rule, by the amended theorem applied at that concrete context. -/
theorem missing_key_behavior_by_operator_witness :
    AutoApproveRules.evalRules [("foo", "bar")] AutoApproveRules.RULES =
      Except.ok AutoApproveRules.noMatchResult :=
  missing_key_behavior_by_operator.1 [("foo", "bar")] rfl

/-- C10: the result of AutoApproveRules.evaluate is a function of the
details mapping alone — the action_type and risk_level parameters are
never consulted. A context carried only in the scalar parameters matches
nothing, while the same data placed inside details matches. -/
theorem evaluate_depends_only_on_details :
    (∀ (a1 r1 a2 r2 : String) (details : Details),
      AutoApproveRules.evaluate a1 r1 details = AutoApproveRules.evaluate a2 r2 details) ∧
    AutoApproveRules.evaluate "read" "low" [] = Except.ok AutoApproveRules.noMatchResult ∧
    AutoApproveRules.evaluate "" "" dReadLow =
      Except.ok { auto_approved := true, rule := some "Read-Only Queries",
                  reason := "Read operations are safe" } :=
  ⟨fun _ _ _ _ _ => rfl, by decide, by decide⟩
